import Mathlib

/-!
# Verification of the express_selenium browser-automation helper layer

A shallow embedding, in Lean 4, of the core pure logic of the repository:

* the selector resolver (`splitSelector` / `toCssSelector` in
  `src/playwright.ts`),
* the visibility waiter and the interaction helpers built on it
  (`waitUntilVisible`, `click`, `focus`, `input`, `pressKey`, `hover`,
  `check`, `uncheck`, `selectOption`, `isVisible`, `isElementPresent`,
  `isEnabled`, `waitForElement`, `waitUntilHidden`),
* the session teardown sequence (`closeBrowser`),
* the browser-engine selection from environment variables
  (`getBrowserEngine`), and
* the per-scenario recording lifecycle manager (`startRecording`,
  `stopRecording`, `getRecordingFile` in `src/recording.ts`).

JavaScript strings are modelled by Lean `String` (a wrapper around
`List Char`); the effectful browser/process API is modelled by explicit
oracles (`PageModel`, platform and clock parameters) together with traces
of the low-level calls each helper performs, so that ordering, fallback
and idempotency properties become statements about pure functions.
-/

namespace E2E

/-! ## Selector resolver (`src/playwright.ts`, `splitSelector` / `toCssSelector`)

`splitSelector` is
`selector.includes(':') ? selector.split(':', 2) : ['css', selector]`.

JavaScript's `s.split(':')` (single-character separator) cuts the string at
every `':'`, producing the (possibly empty) segments between the cuts, and
`"".split(':')` is `[""]`; the limit `2` keeps only the first two segments
and discards the rest.  `jsSplitColon` reproduces this on the underlying
character list. -/

def jsSplitColon : List Char → List (List Char)
  | [] => [[]]
  | c :: rest =>
    if c = ':' then [] :: jsSplitColon rest
    else
      match jsSplitColon rest with
      | [] => [[c]]
      | g :: gs => (c :: g) :: gs

/-- `selector.includes(':') ? selector.split(':', 2) : ['css', selector]`,
destructured as `[prefixPart, rawValue]`: the first two segments of the
colon-split (the limit-2 split keeps exactly those). -/
def splitSelector (selector : String) : String × String :=
  if ':' ∈ selector.data then
    let parts := jsSplitColon selector.data
    (String.mk (parts.headD []), String.mk ((parts.drop 1).headD []))
  else ("css", selector)

/-- `toCssSelector(prefixPart, rawValue)` from `src/playwright.ts`. -/
def toCssSelector (pfx rawValue : String) : String :=
  if pfx = "id" then "#" ++ rawValue
  else if pfx = "name" then "[name=\"" ++ rawValue ++ "\"]"
  else if pfx = "css" then rawValue
  else if pfx = "input" then "input[name=\"" ++ rawValue ++ "\"]"
  else rawValue

/-- Resolution of a selector string to the driver-native CSS selector:
split, then map — the composition used throughout the source. -/
def resolveSelector (selector : String) : String :=
  toCssSelector (splitSelector selector).1 (splitSelector selector).2

/-! ## Page model: the browser as an oracle

`page.waitForSelector(sel, { state, timeout })` either resolves within its
window or rejects with a timeout error.  The oracle `resolves` answers, for
a concrete selector string, desired DOM state and timeout, whether that
wait would succeed; `disabled` answers `page.isDisabled(sel)`. -/

inductive DomState
  | visible
  | attached
  | hidden
deriving DecidableEq

structure PageModel where
  resolves : String → DomState → Nat → Bool
  disabled : String → Bool

inductive WaitError
  | Timeout
deriving DecidableEq

/-- One `page.waitForSelector(sel, { state, timeout })` call. -/
def waitForSelectorE (pm : PageModel) (sel : String) (st : DomState)
    (timeout : Nat) : Except WaitError Unit :=
  if pm.resolves sel st timeout then .ok () else .error .Timeout

/-- The low-level page calls a helper performs, in order.  `waitVisible`
records one `waitForSelector(…, state: 'visible')` attempt; the remaining
constructors record the page interactions themselves. -/
inductive Effect
  | waitVisible (sel : String) (timeout : Nat)
  | click (sel : String)
  | fill (sel : String) (value : String)
  | typeText (sel : String) (value : String)
  | focusEl (sel : String)
  | press (sel : String) (key : String)
  | hoverEl (sel : String)
  | checkEl (sel : String)
  | uncheckEl (sel : String)
  | selectEl (sel : String) (value : String)
deriving DecidableEq

def isWaitVisible : Effect → Bool
  | .waitVisible _ _ => true
  | _ => false

/-- The wait-then-act contract of an interaction helper: on success its
trace is a nonempty block of visible-wait attempts followed by a nonempty
block of page actions; on failure the trace holds only wait attempts (the
action was never reached). -/
def waitThenAct (r : List Effect × Option WaitError) : Prop :=
  (r.2 = none →
    ∃ pre post, r.1 = pre ++ post ∧ pre ≠ [] ∧ post ≠ [] ∧
      (∀ e ∈ pre, isWaitVisible e = true) ∧
      (∀ e ∈ post, isWaitVisible e = false)) ∧
  (r.2 ≠ none → ∀ e ∈ r.1, isWaitVisible e = true)

/-- `waitUntilVisible(page, selector, timeout = 10000)` from
`src/playwright.ts`, instrumented with the list of `waitForSelector`
attempts it makes.  For the `input` prefix it tries
`input[name="X"]` and, in the `catch`, retries once with `input#X`;
every other prefix is a single direct wait on the resolved CSS selector. -/
def waitUntilVisible (pm : PageModel) (selector : String) (timeout : Nat) :
    List Effect × Except WaitError String :=
  let ps := splitSelector selector
  if ps.1 = "input" then
    let sel1 := "input[name=\"" ++ ps.2 ++ "\"]"
    match waitForSelectorE pm sel1 .visible timeout with
    | .ok _ => ([.waitVisible sel1 timeout], .ok sel1)
    | .error _ =>
      let sel2 := "input#" ++ ps.2
      match waitForSelectorE pm sel2 .visible timeout with
      | .ok _ => ([.waitVisible sel1 timeout, .waitVisible sel2 timeout], .ok sel2)
      | .error e => ([.waitVisible sel1 timeout, .waitVisible sel2 timeout], .error e)
  else
    let css := toCssSelector ps.1 ps.2
    match waitForSelectorE pm css .visible timeout with
    | .ok _ => ([.waitVisible css timeout], .ok css)
    | .error e => ([.waitVisible css timeout], .error e)

/-- A call of `waitUntilVisible` that does not pass a timeout uses the
default value `10000` of the source's optional parameter. -/
def waitUntilVisibleDefault (pm : PageModel) (selector : String) :
    List Effect × Except WaitError String :=
  waitUntilVisible pm selector 10000

/-! ## Interaction helpers (`click`, `focus`, `input`, `pressKey`, `hover`,
`check`, `uncheck`, `selectOption`)

Each helper first awaits `waitUntilVisible(page, selector)` (default
timeout) and only then performs its page action; a wait failure propagates
and the action is never reached.  The result is the ordered trace of page
calls plus the propagated error, if any. -/

def clickOp (pm : PageModel) (selector : String) : List Effect × Option WaitError :=
  match waitUntilVisibleDefault pm selector with
  | (tr, .ok sel) => (tr ++ [.click sel], none)
  | (tr, .error e) => (tr, some e)

def focusOp (pm : PageModel) (selector : String) (clear : Bool) :
    List Effect × Option WaitError :=
  match waitUntilVisibleDefault pm selector with
  | (tr, .ok sel) => (tr ++ ([.focusEl sel] ++ (if clear then [.fill sel ""] else [])), none)
  | (tr, .error e) => (tr, some e)

def inputOp (pm : PageModel) (selector value : String) (clear : Bool) :
    List Effect × Option WaitError :=
  match waitUntilVisibleDefault pm selector with
  | (tr, .ok sel) =>
      (tr ++ (if clear then [.fill sel value] else [.typeText sel value]), none)
  | (tr, .error e) => (tr, some e)

/-- `PW_KEY_MAP` from `src/playwright.ts`. -/
def PW_KEY_MAP (key : String) : Option String :=
  if key = "ENTER" then some "Enter"
  else if key = "TAB" then some "Tab"
  else if key = "BACK_SPACE" then some "Backspace"
  else if key = "ESCAPE" then some "Escape"
  else if key = "ARROW_LEFT" then some "ArrowLeft"
  else if key = "ARROW_RIGHT" then some "ArrowRight"
  else if key = "ARROW_UP" then some "ArrowUp"
  else if key = "ARROW_DOWN" then some "ArrowDown"
  else none

def pressKeyOp (pm : PageModel) (selector key : String) :
    List Effect × Option WaitError :=
  match waitUntilVisibleDefault pm selector with
  | (tr, .ok sel) => (tr ++ [.press sel ((PW_KEY_MAP key).getD key)], none)
  | (tr, .error e) => (tr, some e)

def hoverOp (pm : PageModel) (selector : String) : List Effect × Option WaitError :=
  match waitUntilVisibleDefault pm selector with
  | (tr, .ok sel) => (tr ++ [.hoverEl sel], none)
  | (tr, .error e) => (tr, some e)

def checkOp (pm : PageModel) (selector : String) : List Effect × Option WaitError :=
  match waitUntilVisibleDefault pm selector with
  | (tr, .ok sel) => (tr ++ [.checkEl sel], none)
  | (tr, .error e) => (tr, some e)

def uncheckOp (pm : PageModel) (selector : String) : List Effect × Option WaitError :=
  match waitUntilVisibleDefault pm selector with
  | (tr, .ok sel) => (tr ++ [.uncheckEl sel], none)
  | (tr, .error e) => (tr, some e)

def selectOptionOp (pm : PageModel) (selector value : String) :
    List Effect × Option WaitError :=
  match waitUntilVisibleDefault pm selector with
  | (tr, .ok sel) => (tr ++ [.selectEl sel value], none)
  | (tr, .error e) => (tr, some e)

/-! ## Boolean-check helpers and the other waits -/

/-- `isVisible`: resolves the selector directly (no `input` fallback),
waits with a hard-coded 5000 ms timeout, and converts a timeout into
`false` via its `try`/`catch`. -/
def isVisible (pm : PageModel) (selector : String) : Bool :=
  let ps := splitSelector selector
  let css := toCssSelector ps.1 ps.2
  match waitForSelectorE pm css .visible 5000 with
  | .ok _ => true
  | .error _ => false

/-- `isElementPresent`: like `isVisible` but for the `attached` state. -/
def isElementPresent (pm : PageModel) (selector : String) : Bool :=
  let ps := splitSelector selector
  let css := toCssSelector ps.1 ps.2
  match waitForSelectorE pm css .attached 5000 with
  | .ok _ => true
  | .error _ => false

/-- `isEnabled`: `const sel = await waitUntilVisible(page, selector);
return !(await page.isDisabled(sel));` — the wait uses the default
10000 ms timeout and there is no `try`/`catch`, so a timeout propagates. -/
def isEnabled (pm : PageModel) (selector : String) : Except WaitError Bool :=
  match (waitUntilVisibleDefault pm selector).2 with
  | .ok sel => .ok (!(pm.disabled sel))
  | .error e => .error e

/-- `waitForElement(page, selector, timeout = 10000)`: an `attached` wait
on the resolved CSS selector. -/
def waitForElement (pm : PageModel) (selector : String) (timeout : Nat) :
    Except WaitError String :=
  let ps := splitSelector selector
  let css := toCssSelector ps.1 ps.2
  match waitForSelectorE pm css .attached timeout with
  | .ok _ => .ok css
  | .error e => .error e

def waitForElementDefault (pm : PageModel) (selector : String) :
    Except WaitError String :=
  waitForElement pm selector 10000

/-- `waitUntilHidden(page, selector, timeout = 10000)`: a `hidden` wait on
the resolved CSS selector. -/
def waitUntilHidden (pm : PageModel) (selector : String) (timeout : Nat) :
    Except WaitError Unit :=
  let ps := splitSelector selector
  let css := toCssSelector ps.1 ps.2
  match waitForSelectorE pm css .hidden timeout with
  | .ok _ => .ok ()
  | .error e => .error e

def waitUntilHiddenDefault (pm : PageModel) (selector : String) :
    Except WaitError Unit :=
  waitUntilHidden pm selector 10000

/-! ## Browser-engine selection (`getBrowserEngine`) -/

inductive Engine
  | chromium
  | firefox
  | webkit
deriving DecidableEq

/-- The three environment variables consulted; `none` models an undefined
variable, `some s` a variable set to the string `s` (possibly empty —
JavaScript's `??` keeps a defined empty string). -/
structure Env where
  e2eBrowser : Option String
  pwBrowser : Option String
  playwrightBrowser : Option String

/-- JavaScript's `toLowerCase` restricted to the per-character ASCII case
mapping, which is all the engine comparison relies on. -/
def jsToLower (s : String) : String :=
  String.mk (s.data.map Char.toLower)

/-- Classification of the raw hint string: lowercase it, recognize
`firefox` and `webkit`, fall back to `chromium` otherwise. -/
def engineOfRaw (raw : String) : Engine :=
  let val := jsToLower raw
  if val = "firefox" then .firefox
  else if val = "webkit" then .webkit
  else .chromium

/-- `getBrowserEngine` from `src/playwright.ts`:
`process.env.E2E_BROWSER ?? process.env.PW_BROWSER ??
process.env.PLAYWRIGHT_BROWSER ?? 'chromium'`, lowercased and compared
against `firefox` / `webkit`, defaulting to `chromium`. -/
def getBrowserEngine (env : Env) : Engine :=
  let raw := (env.e2eBrowser.orElse fun _ =>
    env.pwBrowser.orElse fun _ => env.playwrightBrowser).getD "chromium"
  let val := jsToLower raw
  if val = "firefox" then .firefox
  else if val = "webkit" then .webkit
  else .chromium

/-! ## Session teardown (`closeBrowser`)

`closeBrowser` runs three `try { await … } catch { }` blocks in order:
`page.close()`, `meta?.context?.close()`, `meta?.browser?.close()`.  The
optional-chaining makes the second and third attempts happen only when the
metadata holds a context / browser; every failure is swallowed by its own
`catch`, so the function itself never raises (its Lean model is total) and
a failing step cannot prevent the following attempts. -/

structure SessionModel where
  contextPresent : Bool
  browserPresent : Bool
  pageCloseFails : Bool
  contextCloseFails : Bool
  browserCloseFails : Bool

/-- A close attempt, recording whether the underlying close succeeded
(`ok = false` models a step whose close raised and was caught). -/
inductive CloseEffect
  | closePage (ok : Bool)
  | closeContext (ok : Bool)
  | closeEngine (ok : Bool)
deriving DecidableEq

def closeBrowser (m : SessionModel) : List CloseEffect :=
  [.closePage (!m.pageCloseFails)]
    ++ (if m.contextPresent then [.closeContext (!m.contextCloseFails)] else [])
    ++ (if m.browserPresent then [.closeEngine (!m.browserCloseFails)] else [])

/-! ## Recording lifecycle manager (`src/recording.ts`)

State: the module-level maps `activeRecordings` (scenario name ↦ ffmpeg
child process, modelled by a numeric process id) and `recordingPaths`
(scenario name ↦ output file path), plus a counter supplying fresh process
ids to `spawn`.  `os.platform()` and `Date.now()` are explicit
parameters.  Each operation returns the new state together with the
ordered trace of its externally visible actions. -/

inductive Platform
  | darwin
  | win32
  | linux
  | other
deriving DecidableEq

structure RecState where
  active : String → Option Nat
  paths : String → Option String
  nextPid : Nat

inductive RecEffect
  | spawnFfmpeg (pid : Nat) (args : List String)
  | sigint (pid : Nat)
  | sleepMs (ms : Nat)
  | removeActive (name : String)
  | logUnsupportedPlatform
  | warnNoProcess (name : String)
  | logStopped (name : String)
deriving DecidableEq

def isSpawn : RecEffect → Bool
  | .spawnFfmpeg _ _ => true
  | _ => false

/-- `scenarioName.replace(/[^a-z0-9]/gi, '_')`: every character that is
not an ASCII letter or digit becomes `'_'`. -/
def sanitize (name : String) : String :=
  String.mk (name.data.map fun c => if c.isAlphanum then c else '_')

/-- The ASCII digit character of `d` (for `d ≤ 9`). -/
def digitChar (d : Nat) : Char :=
  match d with
  | 0 => '0' | 1 => '1' | 2 => '2' | 3 => '3' | 4 => '4'
  | 5 => '5' | 6 => '6' | 7 => '7' | 8 => '8' | _ => '9'

/-- Most-significant-first decimal digits of `n` (empty for `0`). -/
def decimalDigits (n : Nat) : List Char :=
  if h : n = 0 then []
  else decimalDigits (n / 10) ++ [digitChar (n % 10)]
termination_by n
decreasing_by exact Nat.div_lt_self (Nat.pos_of_ne_zero h) (by decide)

/-- JavaScript's rendering `${n}` of a non-negative integer such as
`Date.now()`: its decimal digit string. -/
def decimalRepr (n : Nat) : String :=
  if n = 0 then "0" else String.mk (decimalDigits n)

/-- The recordings directory (`path.join(__dirname, '../recordings')`),
abstracted to a fixed directory name; no claim depends on its value. -/
def recordingsDir : String := "recordings"

/-- `ffmpeg` capture arguments per platform (the `.other` case never
spawns, see `startRecording`). -/
def ffmpegArgs (platform : Platform) (outputFile : String) : List String :=
  match platform with
  | .darwin => ["-f", "avfoundation", "-framerate", "30", "-i", "1:none",
      "-preset", "ultrafast", "-pix_fmt", "yuv420p", outputFile]
  | .win32 => ["-f", "gdigrab", "-framerate", "30", "-i", "desktop",
      "-preset", "ultrafast", "-pix_fmt", "yuv420p", outputFile]
  | .linux => ["-f", "x11grab", "-framerate", "30", "-i", ":0.0",
      "-preset", "ultrafast", "-pix_fmt", "yuv420p", outputFile]
  | .other => []

def getRecordingFile (st : RecState) (name : String) : Option String :=
  st.paths name

/-- `startRecording(scenarioName)`: returns immediately when the name is
already active; otherwise it computes the output file, registers it in
`recordingPaths` (before the platform dispatch), and then either logs an
unsupported-platform error and returns, or spawns `ffmpeg` and registers
the process in `activeRecordings`. -/
def startRecording (platform : Platform) (now : Nat) (st : RecState)
    (name : String) : RecState × List RecEffect :=
  if (st.active name).isSome then (st, [])
  else
    let outputFile :=
      recordingsDir ++ "/" ++ sanitize name ++ "-" ++ decimalRepr now ++ ".mp4"
    let st1 : RecState :=
      { st with paths := fun n => if n = name then some outputFile else st.paths n }
    if platform = .other then (st1, [.logUnsupportedPlatform])
    else
      let pid := st1.nextPid
      ({ st1 with
          active := fun n => if n = name then some pid else st1.active n,
          nextPid := pid + 1 },
        [.spawnFfmpeg pid (ffmpegArgs platform outputFile)])

/-- `stopRecording(scenarioName)`: with no registered process it only logs
a warning; otherwise it sends `SIGINT`, waits the fixed 3000 ms grace
period, removes the scenario from `activeRecordings` (the path map is
untouched) and logs.  The trace records the removal's position after the
grace period. -/
def stopRecording (st : RecState) (name : String) : RecState × List RecEffect :=
  match st.active name with
  | some pid =>
      ({ st with active := fun n => if n = name then none else st.active n },
        [.sigint pid, .sleepMs 3000, .removeActive name, .logStopped name])
  | none => (st, [.warnNoProcess name])

example : resolveSelector "id:login-button" = "#login-button" := by decide
example : resolveSelector "name:q" = "[name=\"q\"]" := by decide
example : resolveSelector "css:.item" = ".item" := by decide
example : resolveSelector "button" = "button" := by decide
example : resolveSelector "input:user" = "input[name=\"user\"]" := by decide
example : resolveSelector "css:a:b" = "a" := by decide

/-! Helper lemmas about `jsSplitColon`. -/

theorem jsSplitColon_ne_nil (l : List Char) : jsSplitColon l ≠ [] := by
  induction l with
  | nil => simp [jsSplitColon]
  | cons c rest ih =>
    simp only [jsSplitColon]
    split
    · simp
    · match h : jsSplitColon rest with
      | [] => simp
      | g :: gs => simp

theorem jsSplitColon_no_colon (l : List Char) (h : ':' ∉ l) :
    jsSplitColon l = [l] := by
  induction l with
  | nil => rfl
  | cons c rest ih =>
    have hc : c ≠ ':' := fun hc => h (hc ▸ List.mem_cons_self c rest)
    have hr : ':' ∉ rest := fun hm => h (List.mem_cons_of_mem c hm)
    simp only [jsSplitColon, if_neg hc, ih hr]

theorem jsSplitColon_append_colon (p rest : List Char) (hp : ':' ∉ p) :
    jsSplitColon (p ++ ':' :: rest) = p :: jsSplitColon rest := by
  induction p with
  | nil => simp [jsSplitColon]
  | cons c p ih =>
    have hc : c ≠ ':' := fun hc => hp (hc ▸ List.mem_cons_self c p)
    have hp' : ':' ∉ p := fun hm => hp (List.mem_cons_of_mem c hm)
    simp only [List.cons_append, jsSplitColon, if_neg hc]
    rw [show p.append (':' :: rest) = p ++ ':' :: rest from rfl, ih hp']

theorem string_mk_data (s : String) : String.mk s.data = s := rfl

theorem splitSelector_of_data (s p X : String)
    (hs : s.data = p.data ++ ':' :: X.data)
    (hp : ':' ∉ p.data) (hX : ':' ∉ X.data) :
    splitSelector s = (p, X) := by
  have hmem : ':' ∈ s.data := by rw [hs]; simp
  simp only [splitSelector, if_pos hmem]
  rw [hs, jsSplitColon_append_colon p.data X.data hp,
    jsSplitColon_no_colon X.data hX]
  simp [string_mk_data]

theorem splitSelector_no_colon (X : String) (hX : ':' ∉ X.data) :
    splitSelector X = ("css", X) := by
  simp [splitSelector, hX]

/-- **C1** (corrected).  JavaScript's `split(':', 2)` keeps only the first
two segments, so the raw value is the segment strictly between the first
and the second `:` of the selector; everything after a second `:` is
discarded.  `"css:a:b"` therefore resolves to `"a"`, not to `"a:b"` as the
claim ("for every raw value X, including X containing `:`") requires. -/
theorem C1_counterexample_colon_in_raw_value :
    resolveSelector ("css:" ++ "a:b") ≠ "a:b" ∧
      resolveSelector ("css:" ++ "a:b") = "a" := by
  constructor
  · decide
  · decide

/-- **C1** (amended): for every raw value `X` that contains no `:`,
resolution maps `id:X` to `#X`, `name:X` to `[name="X"]`, `css:X` to `X`,
`input:X` to `input[name="X"]`, and a bare string with no `:` to itself
(prefix defaults to `css`); when the input does contain `:`, the split
takes the text before the first `:` as the prefix and the segment between
the first and second `:` as the raw value (the `split(':', 2)` limit
discards the rest). -/
theorem C1_selector_resolution (X : String) (hX : ':' ∉ X.data) :
    resolveSelector ("id:" ++ X) = "#" ++ X ∧
    resolveSelector ("name:" ++ X) = "[name=\"" ++ X ++ "\"]" ∧
    resolveSelector ("css:" ++ X) = X ∧
    resolveSelector ("input:" ++ X) = "input[name=\"" ++ X ++ "\"]" ∧
    resolveSelector X = X := by
  have hid : splitSelector ("id:" ++ X) = ("id", X) := by
    refine splitSelector_of_data _ "id" X ?_ (by decide) hX
    rw [String.data_append]; rfl
  have hname : splitSelector ("name:" ++ X) = ("name", X) := by
    refine splitSelector_of_data _ "name" X ?_ (by decide) hX
    rw [String.data_append]; rfl
  have hcss : splitSelector ("css:" ++ X) = ("css", X) := by
    refine splitSelector_of_data _ "css" X ?_ (by decide) hX
    rw [String.data_append]; rfl
  have hinput : splitSelector ("input:" ++ X) = ("input", X) := by
    refine splitSelector_of_data _ "input" X ?_ (by decide) hX
    rw [String.data_append]; rfl
  have hbare : splitSelector X = ("css", X) := splitSelector_no_colon X hX
  refine ⟨?_, ?_, ?_, ?_, ?_⟩ <;>
    simp only [resolveSelector, hid, hname, hcss, hinput, hbare] <;>
    rfl

/-! ### Waiter lemmas -/

theorem waitUntilVisible_trace_waits (pm : PageModel) (s : String) (t : Nat) :
    ∀ e ∈ (waitUntilVisible pm s t).1, isWaitVisible e = true := by
  simp only [waitUntilVisible, waitForSelectorE]
  split <;> split <;> (try split) <;> simp [isWaitVisible]

theorem waitUntilVisible_trace_ne (pm : PageModel) (s : String) (t : Nat) :
    (waitUntilVisible pm s t).1 ≠ [] := by
  simp only [waitUntilVisible, waitForSelectorE]
  split <;> split <;> (try split) <;> simp

theorem waitThenAct_shape (pm : PageModel) (selector : String)
    (f : String → List Effect)
    (hne : ∀ s, f s ≠ [])
    (hact : ∀ s, ∀ e ∈ f s, isWaitVisible e = false) :
    waitThenAct (match waitUntilVisibleDefault pm selector with
      | (tr, .ok sel) => (tr ++ f sel, none)
      | (tr, .error e) => (tr, some e)) := by
  have htr : ∀ e ∈ (waitUntilVisibleDefault pm selector).1, isWaitVisible e = true :=
    waitUntilVisible_trace_waits pm selector 10000
  have htrne : (waitUntilVisibleDefault pm selector).1 ≠ [] :=
    waitUntilVisible_trace_ne pm selector 10000
  rcases hw : waitUntilVisibleDefault pm selector with ⟨tr, r⟩
  rw [hw] at htr htrne
  cases r with
  | ok s =>
      exact ⟨fun _ => ⟨tr, f s, rfl, htrne, hne s, htr, hact s⟩,
        fun hc => absurd rfl hc⟩
  | error e =>
      exact ⟨fun hc => by simp at hc, fun _ => htr⟩

/-- Witness for the amended C1 at the concrete raw value `".item"`. -/
theorem C1_selector_resolution_witness :
    resolveSelector ("id:" ++ ".item") = "#" ++ ".item" ∧
    resolveSelector ("name:" ++ ".item") = "[name=\"" ++ ".item" ++ "\"]" ∧
    resolveSelector ("css:" ++ ".item") = ".item" ∧
    resolveSelector ("input:" ++ ".item") = "input[name=\"" ++ ".item" ++ "\"]" ∧
    resolveSelector ".item" = ".item" :=
  C1_selector_resolution ".item" (by decide)

/-- **C2** (confirmed): for a selector whose parsed prefix is `input` with
raw value `X`, the visibility wait first attempts `input[name="X"]`; if
that wait would time out it retries exactly once with `input#X`; if
neither resolves within its window the operation fails with `Timeout`.
For every other prefix the wait is a single direct attempt on the resolved
CSS selector, with no retry or fallback (the trace holds exactly one
attempt). -/
theorem C2_input_fallback (pm : PageModel) (sel : String) (t : Nat) :
    ((splitSelector sel).1 = "input" →
      (pm.resolves ("input[name=\"" ++ (splitSelector sel).2 ++ "\"]") .visible t = true →
        waitUntilVisible pm sel t =
          ([.waitVisible ("input[name=\"" ++ (splitSelector sel).2 ++ "\"]") t],
            .ok ("input[name=\"" ++ (splitSelector sel).2 ++ "\"]"))) ∧
      (pm.resolves ("input[name=\"" ++ (splitSelector sel).2 ++ "\"]") .visible t = false →
        pm.resolves ("input#" ++ (splitSelector sel).2) .visible t = true →
        waitUntilVisible pm sel t =
          ([.waitVisible ("input[name=\"" ++ (splitSelector sel).2 ++ "\"]") t,
            .waitVisible ("input#" ++ (splitSelector sel).2) t],
            .ok ("input#" ++ (splitSelector sel).2))) ∧
      (pm.resolves ("input[name=\"" ++ (splitSelector sel).2 ++ "\"]") .visible t = false →
        pm.resolves ("input#" ++ (splitSelector sel).2) .visible t = false →
        waitUntilVisible pm sel t =
          ([.waitVisible ("input[name=\"" ++ (splitSelector sel).2 ++ "\"]") t,
            .waitVisible ("input#" ++ (splitSelector sel).2) t],
            .error .Timeout))) ∧
    ((splitSelector sel).1 ≠ "input" →
      waitUntilVisible pm sel t =
        ([.waitVisible (resolveSelector sel) t],
          if pm.resolves (resolveSelector sel) .visible t
          then .ok (resolveSelector sel)
          else .error .Timeout)) := by
  constructor
  · intro hin
    refine ⟨fun h1 => ?_, fun h1 h2 => ?_, fun h1 h2 => ?_⟩ <;>
      simp [waitUntilVisible, waitForSelectorE, hin, h1] <;>
      simp [h2]
  · intro hnin
    simp only [waitUntilVisible, waitForSelectorE, resolveSelector, if_neg hnin]
    cases hres : pm.resolves (toCssSelector (splitSelector sel).1 (splitSelector sel).2)
        DomState.visible t <;>
      simp [hres]

/-- **C3** (confirmed): each interaction helper — click, focus,
fill/input, press, hover, check, uncheck, select — internally performs a
`visible` wait on its selector before its page action: on success its
call trace is a nonempty block of visible-wait attempts strictly followed
by its page actions, and when the wait fails the trace holds nothing but
wait attempts. -/
theorem C3_interactions_wait_before_acting (pm : PageModel)
    (sel value key : String) (clear : Bool) :
    waitThenAct (clickOp pm sel) ∧
    waitThenAct (focusOp pm sel clear) ∧
    waitThenAct (inputOp pm sel value clear) ∧
    waitThenAct (pressKeyOp pm sel key) ∧
    waitThenAct (hoverOp pm sel) ∧
    waitThenAct (checkOp pm sel) ∧
    waitThenAct (uncheckOp pm sel) ∧
    waitThenAct (selectOptionOp pm sel value) := by
  refine ⟨?_, ?_, ?_, ?_, ?_, ?_, ?_, ?_⟩
  · exact waitThenAct_shape pm sel (fun s => [.click s])
      (fun s => by simp) (fun s => by simp [isWaitVisible])
  · exact waitThenAct_shape pm sel
      (fun s => [.focusEl s] ++ (if clear then [.fill s ""] else []))
      (fun s => by cases clear <;> simp)
      (fun s => by cases clear <;> simp [isWaitVisible])
  · exact waitThenAct_shape pm sel
      (fun s => if clear then [.fill s value] else [.typeText s value])
      (fun s => by cases clear <;> simp)
      (fun s => by cases clear <;> simp [isWaitVisible])
  · exact waitThenAct_shape pm sel (fun s => [.press s ((PW_KEY_MAP key).getD key)])
      (fun s => by simp) (fun s => by simp [isWaitVisible])
  · exact waitThenAct_shape pm sel (fun s => [.hoverEl s])
      (fun s => by simp) (fun s => by simp [isWaitVisible])
  · exact waitThenAct_shape pm sel (fun s => [.checkEl s])
      (fun s => by simp) (fun s => by simp [isWaitVisible])
  · exact waitThenAct_shape pm sel (fun s => [.uncheckEl s])
      (fun s => by simp) (fun s => by simp [isWaitVisible])
  · exact waitThenAct_shape pm sel (fun s => [.selectEl s value])
      (fun s => by simp) (fun s => by simp [isWaitVisible])

/-- **C7** (confirmed): session close attempts, in this order, the page
close, the context close and the engine close, and each attempt happens
whatever the earlier steps did (each failure is caught and ignored; the
model is a total function, so close itself never raises).  In particular
`contextCloseFails = true` — a context that is already closed, whose
`close()` rejects — still leads to an engine-close attempt. -/
theorem C7_close_order_and_fault_isolation (m : SessionModel)
    (hc : m.contextPresent = true) (hb : m.browserPresent = true) :
    closeBrowser m =
      [.closePage (!m.pageCloseFails), .closeContext (!m.contextCloseFails),
        .closeEngine (!m.browserCloseFails)] := by
  simp [closeBrowser, hc, hb]

/-- Witness for C7: the context is present but its close fails (already
closed); the page and engine closes succeed, and the engine close is
still attempted, in order. -/
theorem C7_close_order_witness :
    closeBrowser ⟨true, true, false, true, false⟩ =
      [.closePage true, .closeContext false, .closeEngine true] :=
  C7_close_order_and_fault_isolation ⟨true, true, false, true, false⟩ rfl rfl

/-- **C8** (corrected, counterexample): `isEnabled` does not use a 5000 ms
timeout and does not turn a timeout into `false`.  On a page where no wait
ever resolves it propagates `Timeout` instead of returning `false`; on a
page whose waits resolve only when called with timeout 5000 it still times
out (so it did not wait with 5000); and on a page whose waits resolve only
at timeout 10000 it succeeds (so it waited with the 10000 default). -/
theorem C8_counterexample_isEnabled :
    isEnabled ⟨fun _ _ _ => false, fun _ => false⟩ "id:x" = .error .Timeout ∧
    isEnabled ⟨fun _ _ t => t == 5000, fun _ => false⟩ "id:x" = .error .Timeout ∧
    isEnabled ⟨fun _ _ t => t == 10000, fun _ => false⟩ "id:x" = .ok true := by
  refine ⟨?_, ?_, ?_⟩ <;> rfl

/-- **C8** (amended): the visibility, attachment and hidden waits use a
default timeout of 10000 ms; the boolean-check helpers `isVisible` and
`isElementPresent` wait with a narrower 5000 ms timeout and return `false`
on timeout instead of raising (they are total `Bool` functions equal to
the oracle's answer at 5000 ms); `isEnabled`, however, performs a
visibility wait with the 10000 ms default and propagates its `Timeout`
instead of returning `false`. -/
theorem C8_timeouts (pm : PageModel) (s : String) :
    isVisible pm s = pm.resolves (resolveSelector s) .visible 5000 ∧
    isElementPresent pm s = pm.resolves (resolveSelector s) .attached 5000 ∧
    waitUntilVisibleDefault pm s = waitUntilVisible pm s 10000 ∧
    waitForElementDefault pm s = waitForElement pm s 10000 ∧
    waitUntilHiddenDefault pm s = waitUntilHidden pm s 10000 ∧
    (∀ e, (waitUntilVisibleDefault pm s).2 = .error e → isEnabled pm s = .error e) ∧
    (∀ b, (waitUntilVisibleDefault pm s).2 = .ok b →
      isEnabled pm s = .ok (!(pm.disabled b))) := by
  refine ⟨?_, ?_, rfl, rfl, rfl, ?_, ?_⟩
  · simp only [isVisible, waitForSelectorE, resolveSelector]
    cases hres : pm.resolves (toCssSelector (splitSelector s).1 (splitSelector s).2)
        DomState.visible 5000 <;> simp [hres]
  · simp only [isElementPresent, waitForSelectorE, resolveSelector]
    cases hres : pm.resolves (toCssSelector (splitSelector s).1 (splitSelector s).2)
        DomState.attached 5000 <;> simp [hres]
  · intro e he
    simp [isEnabled, he]
  · intro b hb
    simp [isEnabled, hb]

/-- **C9** (corrected, counterexample): engine selection takes the first
*defined* hint, not the first non-empty one.  With `E2E_BROWSER` set to
the empty string and `PW_BROWSER` set to `firefox`, the claim ("first
non-empty") demands `firefox`, but the nullish-coalescing chain keeps the
defined empty string and the engine falls back to `chromium`. -/
theorem C9_counterexample_empty_hint :
    getBrowserEngine ⟨some "", some "firefox", none⟩ = .chromium ∧
      getBrowserEngine ⟨some "", some "firefox", none⟩ ≠ .firefox := by
  constructor
  · rfl
  · intro hc
    exact absurd hc (by decide)

/-- **C9** (amended): the engine is chosen from the first *defined* (set,
possibly empty) of `E2E_BROWSER`, `PW_BROWSER`, `PLAYWRIGHT_BROWSER`, in
that precedence; the chosen value is lowercased and compared against
`firefox` / `webkit`, and every other case — no variable set, an empty
value, or an unrecognized value — yields `chromium`. -/
theorem C9_engine_selection :
    (∀ env s, env.e2eBrowser = some s → getBrowserEngine env = engineOfRaw s) ∧
    (∀ env s, env.e2eBrowser = none → env.pwBrowser = some s →
      getBrowserEngine env = engineOfRaw s) ∧
    (∀ env s, env.e2eBrowser = none → env.pwBrowser = none →
      env.playwrightBrowser = some s → getBrowserEngine env = engineOfRaw s) ∧
    (∀ env, env.e2eBrowser = none → env.pwBrowser = none →
      env.playwrightBrowser = none → getBrowserEngine env = Engine.chromium) ∧
    engineOfRaw "FIREFOX" = .firefox ∧ engineOfRaw "WebKit" = .webkit ∧
    engineOfRaw "firefox" = .firefox ∧ engineOfRaw "webkit" = .webkit ∧
    engineOfRaw "chromium" = .chromium ∧ engineOfRaw "CHROMIUM" = .chromium ∧
    engineOfRaw "" = .chromium ∧ engineOfRaw "safari" = .chromium := by
  refine ⟨?_, ?_, ?_, ?_, ?_, ?_, ?_, ?_, ?_, ?_, ?_, ?_⟩
  · intro env s h
    simp [getBrowserEngine, engineOfRaw, h, Option.orElse]
  · intro env s h1 h2
    simp [getBrowserEngine, engineOfRaw, h1, h2, Option.orElse]
  · intro env s h1 h2 h3
    simp [getBrowserEngine, engineOfRaw, h1, h2, h3, Option.orElse]
  · intro env h1 h2 h3
    simp [getBrowserEngine, engineOfRaw, h1, h2, h3, Option.orElse]
    rfl
  all_goals rfl

/-! ### Recording lemmas -/

theorem digitChar_alphanum (d : Nat) : (digitChar d).isAlphanum = true := by
  unfold digitChar
  split <;> decide

theorem decimalDigits_alphanum (n : Nat) :
    ∀ c ∈ decimalDigits n, c.isAlphanum = true := by
  induction n using Nat.strong_induction_on with
  | _ n ih =>
    rw [decimalDigits]
    split
    · simp
    · next hn =>
      intro c hc
      rcases List.mem_append.mp hc with h | h
      · exact ih (n / 10) (Nat.div_lt_self (Nat.pos_of_ne_zero hn) (by decide)) c h
      · have hc2 := List.mem_singleton.mp h
        rw [hc2]
        exact digitChar_alphanum (n % 10)

theorem decimalRepr_alphanum (n : Nat) :
    ∀ c ∈ (decimalRepr n).data, c.isAlphanum = true := by
  unfold decimalRepr
  split
  · decide
  · exact decimalDigits_alphanum n

theorem sanitize_chars (name : String) :
    ∀ c ∈ (sanitize name).data, c.isAlphanum = true ∨ c = '_' := by
  intro c hc
  rcases List.mem_map.mp hc with ⟨a, _, ha⟩
  by_cases hal : a.isAlphanum
  · left
    rw [← ha]
    simp [hal]
  · right
    rw [← ha]
    simp [hal]

theorem recordingStem_chars (name : String) (now : Nat) :
    ∀ c ∈ (sanitize name ++ "-" ++ decimalRepr now).data,
      c.isAlphanum = true ∨ c = '-' ∨ c = '_' := by
  intro c hc
  rw [String.data_append, String.data_append] at hc
  rcases List.mem_append.mp hc with h | h
  · rcases List.mem_append.mp h with h2 | h2
    · rcases sanitize_chars name c h2 with ha | ha
      · exact Or.inl ha
      · exact Or.inr (Or.inr ha)
    · have h3 : c ∈ ['-'] := h2
      exact Or.inr (Or.inl (List.mem_singleton.mp h3))
  · exact Or.inl (decimalRepr_alphanum now c h)

theorem append_mp4_ne_empty (s : String) : s ++ ".mp4" ≠ "" := by
  intro hc
  have hd : s.data ++ (".mp4" : String).data = [] := by
    rw [← String.data_append, hc]
  rcases List.append_eq_nil.mp hd with ⟨_, h4⟩
  exact absurd h4 (by decide)

theorem start_already_active (p : Platform) (now : Nat) (st : RecState)
    (name : String) (h : (st.active name).isSome = true) :
    startRecording p now st name = (st, []) := by
  simp [startRecording, h]

theorem start_active (p : Platform) (now : Nat) (st : RecState) (name : String)
    (hp : p ≠ Platform.other) (h : st.active name = none) :
    (startRecording p now st name).1.active name = some st.nextPid := by
  simp [startRecording, h, hp]

theorem start_paths (p : Platform) (now : Nat) (st : RecState) (name : String)
    (hp : p ≠ Platform.other) (h : st.active name = none) :
    (startRecording p now st name).1.paths name =
      some (recordingsDir ++ "/" ++ sanitize name ++ "-" ++ decimalRepr now ++ ".mp4") := by
  simp [startRecording, h, hp]

theorem start_trace (p : Platform) (now : Nat) (st : RecState) (name : String)
    (hp : p ≠ Platform.other) (h : st.active name = none) :
    (startRecording p now st name).2 =
      [.spawnFfmpeg st.nextPid (ffmpegArgs p
        (recordingsDir ++ "/" ++ sanitize name ++ "-" ++ decimalRepr now ++ ".mp4"))] := by
  simp [startRecording, h, hp]

theorem stop_preserves_paths (st : RecState) (name : String) :
    (stopRecording st name).1.paths = st.paths := by
  rcases h : st.active name with _ | pid <;> simp [stopRecording, h]

/-- **C4** (confirmed): starting the same scenario twice (on a supported
platform, from a state where it is not yet active) leaves the second call
a silent no-op — same state back, empty trace — with exactly one process
spawned across both calls, one registered process and one registered
output path for the name. -/
theorem C4_idempotent_start (p : Platform) (now1 now2 : Nat) (st : RecState)
    (name : String) (hp : p ≠ Platform.other) (h : st.active name = none) :
    startRecording p now2 (startRecording p now1 st name).1 name =
      ((startRecording p now1 st name).1, []) ∧
    (startRecording p now1 st name).1.active name = some st.nextPid ∧
    (startRecording p now1 st name).1.paths name =
      some (recordingsDir ++ "/" ++ sanitize name ++ "-" ++ decimalRepr now1 ++ ".mp4") ∧
    (((startRecording p now1 st name).2 ++
        (startRecording p now2 (startRecording p now1 st name).1 name).2).filter
          isSpawn).length = 1 := by
  have hact := start_active p now1 st name hp h
  have hsecond : startRecording p now2 (startRecording p now1 st name).1 name =
      ((startRecording p now1 st name).1, []) :=
    start_already_active p now2 _ name (by rw [hact]; rfl)
  refine ⟨hsecond, hact, start_paths p now1 st name hp h, ?_⟩
  rw [start_trace p now1 st name hp h, hsecond]
  simp [isSpawn]

/-- Witness for C4: scenario `"a"` started twice on Linux from the empty
registry. -/
theorem C4_idempotent_start_witness :
    startRecording .linux 2
        (startRecording .linux 1 ⟨fun _ => none, fun _ => none, 0⟩ "a").1 "a" =
      ((startRecording .linux 1 ⟨fun _ => none, fun _ => none, 0⟩ "a").1, []) ∧
    (startRecording .linux 1 ⟨fun _ => none, fun _ => none, 0⟩ "a").1.active "a" =
      some (0 : Nat) ∧
    (startRecording .linux 1 ⟨fun _ => none, fun _ => none, 0⟩ "a").1.paths "a" =
      some (recordingsDir ++ "/" ++ sanitize "a" ++ "-" ++ decimalRepr 1 ++ ".mp4") ∧
    (((startRecording .linux 1 ⟨fun _ => none, fun _ => none, 0⟩ "a").2 ++
        (startRecording .linux 2
          (startRecording .linux 1 ⟨fun _ => none, fun _ => none, 0⟩ "a").1 "a").2).filter
          isSpawn).length = 1 :=
  C4_idempotent_start .linux 1 2 ⟨fun _ => none, fun _ => none, 0⟩ "a" (by decide) rfl

/-- **C5** (confirmed): `stop` on a name with no active process only logs
a warning — no signal, no sleep, no state change, and no exception (the
model is total); on an active name it sends `SIGINT`, sleeps the fixed
3000 ms grace period, and only then removes the name from the active set
(the trace order shows the removal after the sleep), leaving the path map
untouched. -/
theorem C5_stop_behaviour (st : RecState) (name : String) :
    (st.active name = none →
      stopRecording st name = (st, [.warnNoProcess name])) ∧
    (∀ pid, st.active name = some pid →
      (stopRecording st name).2 =
        [.sigint pid, .sleepMs 3000, .removeActive name, .logStopped name] ∧
      (stopRecording st name).1.active name = none ∧
      (stopRecording st name).1.paths = st.paths) := by
  constructor
  · intro h
    simp [stopRecording, h]
  · intro pid h
    refine ⟨?_, ?_, stop_preserves_paths st name⟩ <;> simp [stopRecording, h]

/-- **C6** (confirmed): after `start` then `stop`, the output path for the
scenario still resolves (stop never clears the path map); the path is
nonempty, and the filename stem — the sanitized scenario name joined by
`'-'` to the decimal timestamp — contains only alphanumeric, `'-'` or
`'_'` characters. -/
theorem C6_output_path_survives_stop (p : Platform) (now : Nat) (st : RecState)
    (name : String) (hp : p ≠ Platform.other) (h : st.active name = none) :
    getRecordingFile (stopRecording (startRecording p now st name).1 name).1 name =
      some (recordingsDir ++ "/" ++ sanitize name ++ "-" ++ decimalRepr now ++ ".mp4") ∧
    recordingsDir ++ "/" ++ sanitize name ++ "-" ++ decimalRepr now ++ ".mp4" ≠ "" ∧
    (∀ c ∈ (sanitize name ++ "-" ++ decimalRepr now).data,
      c.isAlphanum = true ∨ c = '-' ∨ c = '_') := by
  refine ⟨?_, append_mp4_ne_empty _, recordingStem_chars name now⟩
  show (stopRecording (startRecording p now st name).1 name).1.paths name = _
  rw [stop_preserves_paths]
  exact start_paths p now st name hp h

/-- Witness for C6: scenario `"a b"` started at time 3 on Linux, then
stopped. -/
theorem C6_output_path_survives_stop_witness :
    getRecordingFile
        (stopRecording (startRecording .linux 3 ⟨fun _ => none, fun _ => none, 0⟩ "a b").1
          "a b").1 "a b" =
      some (recordingsDir ++ "/" ++ sanitize "a b" ++ "-" ++ decimalRepr 3 ++ ".mp4") ∧
    recordingsDir ++ "/" ++ sanitize "a b" ++ "-" ++ decimalRepr 3 ++ ".mp4" ≠ "" ∧
    (∀ c ∈ (sanitize "a b" ++ "-" ++ decimalRepr 3).data,
      c.isAlphanum = true ∨ c = '-' ∨ c = '_') :=
  C6_output_path_survives_stop .linux 3 ⟨fun _ => none, fun _ => none, 0⟩ "a b"
    (by decide) rfl

/-- **C10** (confirmed): `start` on an unsupported platform registers the
output path *before* the platform dispatch detects the unsupported case,
so after the failed start the path resolves while no process was spawned
and the name is absent from the active set (the trace is just the
unsupported-platform error log). -/
theorem C10_path_registered_on_unsupported_platform (now : Nat) (st : RecState)
    (name : String) (h : st.active name = none) :
    (startRecording .other now st name).1.paths name =
      some (recordingsDir ++ "/" ++ sanitize name ++ "-" ++ decimalRepr now ++ ".mp4") ∧
    (startRecording .other now st name).1.active name = none ∧
    (startRecording .other now st name).2 = [.logUnsupportedPlatform] := by
  refine ⟨?_, ?_, ?_⟩ <;> simp [startRecording, h]

/-- Witness for C10: scenario `"a"` started on an unsupported platform
from the empty registry. -/
theorem C10_path_registered_on_unsupported_platform_witness :
    (startRecording .other 7 ⟨fun _ => none, fun _ => none, 0⟩ "a").1.paths "a" =
      some (recordingsDir ++ "/" ++ sanitize "a" ++ "-" ++ decimalRepr 7 ++ ".mp4") ∧
    (startRecording .other 7 ⟨fun _ => none, fun _ => none, 0⟩ "a").1.active "a" = none ∧
    (startRecording .other 7 ⟨fun _ => none, fun _ => none, 0⟩ "a").2 =
      [.logUnsupportedPlatform] :=
  C10_path_registered_on_unsupported_platform 7 ⟨fun _ => none, fun _ => none, 0⟩ "a" rfl

end E2E
